import Mathlib

/-
Verification development for the gRPCpeek dynamic gRPC runtime
(src-tauri/src/main.rs and src-tauri/src/proto_parser.rs).

Bytes are modelled as natural numbers below 256; byte buffers as lists of
naturals. External library behaviour (prost message decoding, serde JSON
parsing) is passed in as explicit function arguments or already-computed
results, so each embedded definition mirrors exactly the control flow of the
Rust source it names.
-/

set_option maxHeartbeats 1000000

namespace GrpcPeek

/-- Minimal JSON value model (serde_json::Value). Floating-point zero is
modelled as the numeric zero. -/
inductive Json where
  | null
  | bool (b : Bool)
  | num (n : Int)
  | str (s : String)
  | arr (elems : List Json)
  | obj (fields : List (String × Json))

/-- Big-endian decoding of four bytes, as in u32::from_be_bytes
(main.rs lines 283-288). -/
def u32_from_be_bytes (b1 b2 b3 b4 : Nat) : Nat :=
  ((b1 * 256 + b2) * 256 + b3) * 256 + b4

/-- Big-endian byte encoding of a u32 value, as in (n as u32).to_be_bytes()
(main.rs line 386); the modulus mirrors the `as u32` truncation. -/
def u32_to_be_bytes (n : Nat) : List Nat :=
  [n / 16777216 % 256, n / 65536 % 256, n / 256 % 256, n % 256]

/-- The gRPC frame encoding of main.rs lines 384-387: compression flag 0,
4-byte big-endian length, then the payload. -/
def encode_grpc_frame (x : List Nat) : List Nat :=
  0 :: (u32_to_be_bytes x.length ++ x)

/-- read_grpc_frames, main.rs lines 277-305: sequentially consume whole
frames; each loop iteration needs `offset + 5 <= len`; a declared payload
length larger than the remaining bytes is an invalid-frame error; leftover
bytes shorter than a header end the loop with the frames read so far. -/
def read_grpc_frames : List Nat → Except String (List (List Nat))
  | _flag :: b1 :: b2 :: b3 :: b4 :: rest =>
    let message_len := u32_from_be_bytes b1 b2 b3 b4
    if rest.length < message_len then
      Except.error ("Invalid frame: expected " ++ toString message_len ++
        " bytes but only " ++ toString rest.length ++ " remaining")
    else
      match read_grpc_frames (rest.drop message_len) with
      | Except.ok frames => Except.ok (rest.take message_len :: frames)
      | Except.error e => Except.error e
  | _ => Except.ok []
termination_by l => l.length
decreasing_by simp only [List.length_drop, List.length_cons]; omega

/-- The frame-draining loop of the server-streaming (main.rs lines 590-611)
and bidirectional (lines 980-995) buffer handling: extract every complete
frame from the buffer, keep the incomplete remainder buffered. -/
def drain_stream_buffer : List Nat → List (List Nat) × List Nat
  | _flag :: b1 :: b2 :: b3 :: b4 :: rest =>
    let message_len := u32_from_be_bytes b1 b2 b3 b4
    if rest.length < message_len then
      ([], _flag :: b1 :: b2 :: b3 :: b4 :: rest)
    else
      let res := drain_stream_buffer (rest.drop message_len)
      (rest.take message_len :: res.1, res.2)
  | buffer => ([], buffer)
termination_by l => l.length
decreasing_by simp only [List.length_drop, List.length_cons]; omega

/-- Declared payload length of the frame at the head of a buffer (0 when the
buffer has no complete 5-byte header). -/
def declared_len : List Nat → Nat
  | _ :: b1 :: b2 :: b3 :: b4 :: _ => u32_from_be_bytes b1 b2 b3 b4
  | _ => 0

/-- The unary body read of call_grpc_method, main.rs lines 655-689: read at
most one frame; `decode_json` stands for DynamicMessage::decode followed by
serde_json::to_value against output_desc (its error text included). A body
shorter than a header, or whose declared length exceeds the remaining bytes,
silently yields no response value. -/
def unary_read_body (decode_json : List Nat → Except String Json) :
    List Nat → Except String (Option Json)
  | _flag :: b1 :: b2 :: b3 :: b4 :: rest =>
    let message_len := u32_from_be_bytes b1 b2 b3 b4
    if message_len ≤ rest.length then
      match decode_json (rest.take message_len) with
      | Except.ok v => Except.ok (some v)
      | Except.error e => Except.error e
    else Except.ok none
  | _ => Except.ok none

/-- The envelope fields computed by call_grpc_method for the unary case,
main.rs lines 692-728. `decode_success` is exactly `response_data.isSome` in
that path. -/
structure UnaryEnvelope where
  status : String
  grpc_status : String
  grpc_message : String
  response : Option Json
  note : String

/-- Envelope construction of main.rs lines 692-728 (unary branch): the
grpc-status defaults to "0" when a frame was decoded and "unknown"
otherwise, and status is "success" exactly when grpc_status is "0". -/
def mk_unary_envelope (grpc_status_raw : Option String) (grpc_message : String)
    (response_data : Option Json) : UnaryEnvelope :=
  let decode_success := response_data.isSome
  let grpc_status :=
    grpc_status_raw.getD (if decode_success then "0" else "unknown")
  { status := if grpc_status = "0" then "success" else "error"
    grpc_status := grpc_status
    grpc_message := grpc_message
    response := response_data
    note := if grpc_status = "0" then
        "✓ gRPC call successful! Response decoded from protobuf."
      else
        "✓ Connected to gRPC server. Call failed - see grpc_status and grpc_message for details." }

/-! Helper lemmas about the frame codec. -/

theorem u32_be_roundtrip (n : Nat) (h : n < 2 ^ 32) :
    u32_from_be_bytes (n / 16777216 % 256) (n / 65536 % 256) (n / 256 % 256)
      (n % 256) = n := by
  simp only [u32_from_be_bytes]
  omega

theorem read_grpc_frames_short (t : List Nat) (h : t.length < 5) :
    read_grpc_frames t = Except.ok [] := by
  match t with
  | [] => simp [read_grpc_frames]
  | [a] => simp [read_grpc_frames]
  | [a, b] => simp [read_grpc_frames]
  | [a, b, c] => simp [read_grpc_frames]
  | [a, b, c, d] => simp [read_grpc_frames]
  | a :: b :: c :: d :: e :: rest => simp at h; omega

theorem read_grpc_frames_cons (f : Nat) (x r : List Nat) (h : x.length < 2 ^ 32) :
    read_grpc_frames ((f :: (u32_to_be_bytes x.length ++ x)) ++ r)
      = Except.map (fun frames => x :: frames) (read_grpc_frames r) := by
  have hx : (f :: (u32_to_be_bytes x.length ++ x)) ++ r
      = f :: (x.length / 16777216 % 256) :: (x.length / 65536 % 256) ::
        (x.length / 256 % 256) :: (x.length % 256) :: (x ++ r) := by
    simp [u32_to_be_bytes]
  rw [hx]
  rw [read_grpc_frames]
  rw [u32_be_roundtrip x.length h]
  have hlt : ¬ (x ++ r).length < x.length := by
    simp only [List.length_append]; omega
  rw [if_neg hlt, List.take_left, List.drop_left]
  cases read_grpc_frames r <;> simp [Except.map]

theorem drain_stream_buffer_short (t : List Nat)
    (h : t.length < 5 + declared_len t) :
    drain_stream_buffer t = ([], t) := by
  match t with
  | [] => simp [drain_stream_buffer]
  | [a] => simp [drain_stream_buffer]
  | [a, b] => simp [drain_stream_buffer]
  | [a, b, c] => simp [drain_stream_buffer]
  | [a, b, c, d] => simp [drain_stream_buffer]
  | a :: b1 :: b2 :: b3 :: b4 :: rest =>
    rw [drain_stream_buffer]
    have hlt : rest.length < u32_from_be_bytes b1 b2 b3 b4 := by
      simp only [declared_len, List.length_cons] at h; omega
    rw [if_pos hlt]

theorem drain_stream_buffer_cons (f : Nat) (x r : List Nat)
    (h : x.length < 2 ^ 32) :
    drain_stream_buffer ((f :: (u32_to_be_bytes x.length ++ x)) ++ r)
      = (x :: (drain_stream_buffer r).1, (drain_stream_buffer r).2) := by
  have hx : (f :: (u32_to_be_bytes x.length ++ x)) ++ r
      = f :: (x.length / 16777216 % 256) :: (x.length / 65536 % 256) ::
        (x.length / 256 % 256) :: (x.length % 256) :: (x ++ r) := by
    simp [u32_to_be_bytes]
  rw [hx]
  rw [drain_stream_buffer]
  rw [u32_be_roundtrip x.length h]
  have hlt : ¬ (x ++ r).length < x.length := by
    simp only [List.length_append]; omega
  rw [if_neg hlt, List.take_left, List.drop_left]

/-- C1: for a unary call that produced an envelope (the unary body read
returned without error), status is "success" precisely when the grpc-status
header equals "0" or the header is absent and a response frame was decoded
(the decoded response value exists); with no header and no decoded frame the
reported grpc_status is "unknown". -/
theorem c1_unary_status (decode_json : List Nat → Except String Json)
    (body : List Nat) (grpc_status_raw : Option String) (grpc_message : String)
    (response_data : Option Json)
    (h : unary_read_body decode_json body = Except.ok response_data) :
    ((mk_unary_envelope grpc_status_raw grpc_message response_data).status
        = "success"
      ↔ (grpc_status_raw = some "0"
          ∨ (grpc_status_raw = none ∧ response_data.isSome = true)))
    ∧ (grpc_status_raw = none → response_data = none →
        (mk_unary_envelope grpc_status_raw grpc_message response_data).grpc_status
          = "unknown") := by
  constructor
  · cases grpc_status_raw with
    | none =>
      cases response_data <;>
        simp [mk_unary_envelope, Option.getD, Option.isSome]
    | some s =>
      by_cases hs : s = "0" <;>
        simp [mk_unary_envelope, Option.getD, hs]
  · intro h1 h2
    subst h1; subst h2
    simp [mk_unary_envelope, Option.getD, Option.isSome]

/-- Witness for c1_unary_status at a concrete empty-payload body whose frame
decodes, with the grpc-status header absent. -/
theorem c1_unary_status_witness :
    ((mk_unary_envelope none "" (some Json.null)).status = "success"
      ↔ (none = some "0" ∨ ((none : Option String) = none ∧ (some Json.null).isSome = true)))
    ∧ ((none : Option String) = none → some Json.null = none →
        (mk_unary_envelope none "" (some Json.null)).grpc_status = "unknown") :=
  c1_unary_status (fun _ => Except.ok Json.null) [0, 0, 0, 0, 0] none ""
    (some Json.null) rfl

/-- C2 counterexample: a frame whose compression flag byte is 1 is not
rejected; every decoder path hands its payload on as if it were an
uncompressed message. read_grpc_frames returns the payload, the streaming
drain loop extracts it, and the unary body read passes it to the protobuf
decoder. -/
theorem c2_compression_counterexample :
    read_grpc_frames [1, 0, 0, 0, 1, 42] = Except.ok [[42]]
    ∧ drain_stream_buffer [1, 0, 0, 0, 1, 42] = ([[42]], [])
    ∧ unary_read_body (fun _ => Except.ok (Json.str "decoded")) [1, 0, 0, 0, 1, 42]
        = Except.ok (some (Json.str "decoded")) := by
  refine ⟨?_, ?_, rfl⟩
  · have h := read_grpc_frames_cons 1 [42] [] (by norm_num)
    simp only [u32_to_be_bytes, List.length_cons, List.length_nil] at h
    norm_num at h
    simpa [read_grpc_frames] using h
  · have h := drain_stream_buffer_cons 1 [42] [] (by norm_num)
    simp only [u32_to_be_bytes, List.length_cons, List.length_nil] at h
    norm_num at h
    simpa [drain_stream_buffer] using h

/-- C2 (amended): the compression flag byte of each received frame is read
and then ignored; for any flag values, the frame reader decodes the payload
bytes exactly as it would for uncompressed frames, and no error is returned
on a non-zero flag. -/
theorem c2_flag_ignored (ps : List (Nat × List Nat))
    (h : ∀ p ∈ ps, p.2.length < 2 ^ 32) :
    read_grpc_frames
        (ps.map (fun p => p.1 :: (u32_to_be_bytes p.2.length ++ p.2))).flatten
      = Except.ok (ps.map Prod.snd) := by
  induction ps with
  | nil => simp [read_grpc_frames]
  | cons p ps ih =>
    simp only [List.map_cons, List.flatten_cons]
    rw [read_grpc_frames_cons p.1 p.2 _ (h p (by simp))]
    rw [ih (fun q hq => h q (by simp [hq]))]
    simp [Except.map]

/-- Witness for c2_flag_ignored: one frame with compression flag 1. -/
theorem c2_flag_ignored_witness :
    read_grpc_frames
        (([((1 : Nat), [(42 : Nat)])].map
          (fun p => p.1 :: (u32_to_be_bytes p.2.length ++ p.2))).flatten)
      = Except.ok [[42]] :=
  c2_flag_ignored [(1, [42])] (by norm_num)

/-- C3: frame-codec round trip. Encoding every payload as flag byte 0, the
4-byte big-endian length, then the payload, concatenating, and running
read_grpc_frames recovers exactly the payload list. -/
theorem c3_frame_roundtrip (xs : List (List Nat))
    (h : ∀ x ∈ xs, x.length < 2 ^ 32) :
    read_grpc_frames (xs.map encode_grpc_frame).flatten = Except.ok xs := by
  induction xs with
  | nil => simp [read_grpc_frames]
  | cons x xs ih =>
    simp only [List.map_cons, List.flatten, encode_grpc_frame]
    rw [read_grpc_frames_cons 0 x _ (h x (by simp))]
    rw [ih (fun q hq => h q (by simp [hq]))]
    simp [Except.map]

/-- Witness for c3_frame_roundtrip on a two-frame list. -/
theorem c3_frame_roundtrip_witness :
    read_grpc_frames (([[7, 8], [9]] : List (List Nat)).map encode_grpc_frame).flatten
      = Except.ok [[7, 8], [9]] :=
  c3_frame_roundtrip [[7, 8], [9]] (by norm_num)

/-- C4 counterexample: in the buffered non-streaming (unary) path, a frame
whose declared payload length (5) exceeds the remaining bytes (0) does NOT
produce an invalid-frame error: the unary read returns Ok with no response
value. The helper read_grpc_frames is the only reader that errors there. -/
theorem c4_truncated_frame_counterexample :
    unary_read_body (fun _ => Except.ok Json.null) [0, 0, 0, 0, 5]
        = Except.ok none
    ∧ read_grpc_frames [0, 0, 0, 0, 5]
        = Except.error "Invalid frame: expected 5 bytes but only 0 remaining" := by
  refine ⟨rfl, ?_⟩
  rw [read_grpc_frames]
  norm_num [u32_from_be_bytes]
  rfl

/-- C4 (amended): the helper read_grpc_frames consumes frames sequentially,
requires 5 header bytes per iteration, tolerates trailing bytes shorter than
a header, and reports an invalid-frame error when a declared payload length
exceeds the remaining bytes; the streaming loop keeps an incomplete trailing
frame buffered; but the unary body read silently yields no response (and no
error) on a truncated frame. -/
theorem c4_frame_reader_behaviour :
    (∀ (xs : List (List Nat)) (t : List Nat),
      (∀ x ∈ xs, x.length < 2 ^ 32) → t.length < 5 →
      read_grpc_frames ((xs.map encode_grpc_frame).flatten ++ t) = Except.ok xs)
    ∧ (∀ (xs : List (List Nat)) (f len : Nat) (p : List Nat),
      (∀ x ∈ xs, x.length < 2 ^ 32) → len < 2 ^ 32 → p.length < len →
      read_grpc_frames
          ((xs.map encode_grpc_frame).flatten ++ (f :: (u32_to_be_bytes len ++ p)))
        = Except.error ("Invalid frame: expected " ++ toString len ++
            " bytes but only " ++ toString p.length ++ " remaining"))
    ∧ (∀ (xs : List (List Nat)) (r : List Nat),
      (∀ x ∈ xs, x.length < 2 ^ 32) → r.length < 5 + declared_len r →
      drain_stream_buffer ((xs.map encode_grpc_frame).flatten ++ r) = (xs, r))
    ∧ (∀ (decode_json : List Nat → Except String Json) (f len : Nat) (p : List Nat),
      len < 2 ^ 32 → p.length < len →
      unary_read_body decode_json (f :: (u32_to_be_bytes len ++ p))
        = Except.ok none) := by
  refine ⟨?_, ?_, ?_, ?_⟩
  · intro xs t hxs ht
    induction xs with
    | nil => simpa using read_grpc_frames_short t ht
    | cons x xs ih =>
      simp only [List.map_cons, List.flatten_cons, encode_grpc_frame,
        List.append_assoc]
      rw [read_grpc_frames_cons 0 x _ (hxs x (by simp))]
      rw [ih (fun q hq => hxs q (by simp [hq]))]
      simp [Except.map]
  · intro xs f len p hxs hlen hp
    induction xs with
    | nil =>
      have hx : ((List.nil.map encode_grpc_frame).flatten
            ++ (f :: (u32_to_be_bytes len ++ p)) : List Nat)
          = f :: (len / 16777216 % 256) :: (len / 65536 % 256) ::
            (len / 256 % 256) :: (len % 256) :: p := by
        simp [u32_to_be_bytes]
      rw [hx, read_grpc_frames, u32_be_roundtrip len hlen, if_pos hp]
    | cons x xs ih =>
      simp only [List.map_cons, List.flatten_cons, encode_grpc_frame,
        List.append_assoc]
      rw [read_grpc_frames_cons 0 x _ (hxs x (by simp))]
      have := ih (fun q hq => hxs q (by simp [hq]))
      simp only [List.nil_append] at this ⊢
      rw [this]
      simp [Except.map]
  · intro xs r hxs hr
    induction xs with
    | nil => simpa using drain_stream_buffer_short r hr
    | cons x xs ih =>
      simp only [List.map_cons, List.flatten_cons, encode_grpc_frame,
        List.append_assoc]
      rw [drain_stream_buffer_cons 0 x _ (hxs x (by simp))]
      have := ih (fun q hq => hxs q (by simp [hq]))
      simp only [List.nil_append] at this ⊢
      rw [this]
  · intro decode_json f len p hlen hp
    have hx : (f :: (u32_to_be_bytes len ++ p) : List Nat)
        = f :: (len / 16777216 % 256) :: (len / 65536 % 256) ::
          (len / 256 % 256) :: (len % 256) :: p := by
      simp [u32_to_be_bytes]
    rw [hx]
    show (if u32_from_be_bytes (len / 16777216 % 256) (len / 65536 % 256)
        (len / 256 % 256) (len % 256) ≤ p.length then _ else Except.ok none)
      = Except.ok none
    rw [u32_be_roundtrip len hlen, if_neg (by omega)]

/-- Witness for c4_frame_reader_behaviour: one well-formed frame followed by
a 2-byte tail for the reader, a truncated frame for the invalid-frame error,
an incomplete remainder for the streaming drain, and a truncated unary body. -/
theorem c4_frame_reader_behaviour_witness :
    read_grpc_frames ((([[7]] : List (List Nat)).map encode_grpc_frame).flatten ++ [9, 9])
        = Except.ok [[7]]
    ∧ read_grpc_frames ((([] : List (List Nat)).map encode_grpc_frame).flatten
          ++ (0 :: (u32_to_be_bytes 5 ++ [1, 2])))
        = Except.error ("Invalid frame: expected " ++ toString 5 ++
            " bytes but only " ++ toString ([1, 2] : List Nat).length ++ " remaining")
    ∧ drain_stream_buffer ((([[7]] : List (List Nat)).map encode_grpc_frame).flatten
          ++ [0, 0, 0, 0, 3, 1])
        = ([[7]], [0, 0, 0, 0, 3, 1])
    ∧ unary_read_body (fun _ => Except.ok Json.null) (0 :: (u32_to_be_bytes 5 ++ [1, 2]))
        = Except.ok none :=
  ⟨c4_frame_reader_behaviour.1 [[7]] [9, 9] (by norm_num) (by norm_num),
   c4_frame_reader_behaviour.2.1 [] 0 5 [1, 2] (by simp) (by norm_num) (by norm_num),
   c4_frame_reader_behaviour.2.2.1 [[7]] [0, 0, 0, 0, 3, 1] (by norm_num)
     (by norm_num [declared_len, u32_from_be_bytes]),
   c4_frame_reader_behaviour.2.2.2 (fun _ => Except.ok Json.null) 0 5 [1, 2]
     (by norm_num) (by norm_num)⟩

/-! Descriptor model for the sample synthesizers. A descriptor pool is a
finite map from message full names to field lists; message-typed fields
refer to their message by name, which is how prost_reflect's descriptor
graph (possibly cyclic) is represented shallowly. -/

/-- Field kind, mirroring prost_reflect::Kind as matched in
main.rs lines 744-771 and proto_parser.rs lines 710-731. -/
inductive PKind where
  | double | float
  | int32 | int64 | uint32 | uint64 | sint32 | sint64
  | fixed32 | fixed64 | sfixed32 | sfixed64
  | bool | string | bytes
  | message (type_name : String)
  | enumeration (value_names : List String)

/-- Field descriptor: json_name, cardinality flags and kind. -/
structure PField where
  json_name : String
  is_list : Bool
  is_map : Bool
  kind : PKind

/-- Descriptor pool restricted to messages: full name to field list. -/
def MsgPool := List (String × List PField)

/-- Message lookup in the pool (resolution of a message-typed field). -/
def lookup_message (pool : MsgPool) (type_name : String) : Option (List PField) :=
  (List.find? (fun e => e.1 == type_name) pool).map Prod.snd

/-- generate_default_value_for_field, main.rs lines 733-772, instrumented
with a fuel argument bounding the recursion depth: the Rust function has no
depth bound, so `none` means the call tree is deeper than the given fuel.
The Rust function terminates on a field exactly when some fuel suffices.
A message name absent from the pool yields Json.null; this case is
unreachable for pools coming from a descriptor set, where every
message-typed field resolves. -/
def generate_default_value_for_field (pool : MsgPool) :
    Nat → PField → Option Json
  | 0, _ => none
  | fuel + 1, field =>
    if field.is_list then some (Json.arr [])
    else if field.is_map then some (Json.obj [])
    else
      match field.kind with
      | PKind.double | PKind.float => some (Json.num 0)
      | PKind.int32 | PKind.int64 | PKind.uint32 | PKind.uint64
      | PKind.sint32 | PKind.sint64 | PKind.fixed32 | PKind.fixed64
      | PKind.sfixed32 | PKind.sfixed64 => some (Json.num 0)
      | PKind.bool => some (Json.bool false)
      | PKind.string => some (Json.str "")
      | PKind.bytes => some (Json.str "base64_encoded_bytes")
      | PKind.message type_name =>
        match lookup_message pool type_name with
        | some nested_fields =>
          (nested_fields.mapM (fun nf =>
            (generate_default_value_for_field pool fuel nf).map
              (fun v => (nf.json_name, v)))).map Json.obj
        | none => some Json.null
      | PKind.enumeration value_names =>
        match value_names.head? with
        | some v => some (Json.str v)
        | none => some (Json.num 0)

/-- MAX_SAMPLE_DEPTH, proto_parser.rs line 13. -/
def MAX_SAMPLE_DEPTH : Nat := 4

mutual

/-- generate_sample_json, proto_parser.rs lines 682-697: messages at or
beyond MAX_SAMPLE_DEPTH are emitted as the empty object. An unresolvable
message name also yields the empty object (unreachable for descriptor-set
pools). -/
def generate_sample_json (pool : MsgPool) (type_name : String) (depth : Nat) :
    Json :=
  if h : MAX_SAMPLE_DEPTH ≤ depth then Json.obj []
  else
    Json.obj (sample_object_fields pool
      ((lookup_message pool type_name).getD []) (depth + 1))
termination_by (5 - depth, 0)
decreasing_by
  apply Prod.Lex.left
  simp only [MAX_SAMPLE_DEPTH] at h
  omega

/-- The field loop of generate_sample_json (proto_parser.rs lines 689-694). -/
def sample_object_fields (pool : MsgPool) :
    List PField → Nat → List (String × Json)
  | [], _ => []
  | field :: rest, depth =>
    (field.json_name, default_value_for_field pool field depth)
      :: sample_object_fields pool rest depth
termination_by fields depth => (5 - depth, fields.length + 2)
decreasing_by
  · apply Prod.Lex.right
    omega
  · apply Prod.Lex.right
    simp only [List.length_cons]
    omega

/-- default_value_for_field, proto_parser.rs lines 699-732. -/
def default_value_for_field (pool : MsgPool) (field : PField) (depth : Nat) :
    Json :=
  if field.is_list then Json.arr []
  else if field.is_map then Json.obj []
  else
    match field.kind with
    | PKind.double | PKind.float => Json.num 0
    | PKind.int32 | PKind.int64 | PKind.uint32 | PKind.uint64
    | PKind.sint32 | PKind.sint64 | PKind.fixed32 | PKind.fixed64
    | PKind.sfixed32 | PKind.sfixed64 => Json.num 0
    | PKind.bool => Json.bool false
    | PKind.string => Json.str ""
    | PKind.bytes => Json.str "base64_encoded_bytes"
    | PKind.enumeration value_names =>
      (value_names.head?.map Json.str).getD (Json.num 0)
    | PKind.message type_name => generate_sample_json pool type_name depth
termination_by (5 - depth, 1)
decreasing_by
  apply Prod.Lex.right
  omega

end

/-- A self-referential message: message M with a singular field of type M. -/
def cyclic_field : PField :=
  { json_name := "next", is_list := false, is_map := false,
    kind := PKind.message "M" }

/-- Pool containing only the self-referential message M. -/
def cyclic_pool : MsgPool := [("M", [cyclic_field])]

theorem cyclic_lookup : lookup_message cyclic_pool "M" = some [cyclic_field] :=
  rfl

/-- C5: the proto_parser sample synthesizer (generate_sample_json) is
depth-bounded: at depth MAX_SAMPLE_DEPTH (4) or beyond every message is
emitted as the empty object, so it terminates on any descriptor graph. The
main.rs synthesizer generate_default_value_for_field, used by
generate_sample_request (sample-for), has NO depth bound: on a
self-referential message it needs more than any finite recursion depth, i.e.
it does not terminate. -/
theorem c5_sample_depth_divergence :
    (∀ (pool : MsgPool) (type_name : String) (extra : Nat),
      generate_sample_json pool type_name (MAX_SAMPLE_DEPTH + extra) = Json.obj [])
    ∧ (∀ fuel : Nat,
      generate_default_value_for_field cyclic_pool fuel cyclic_field = none) := by
  constructor
  · intro pool type_name extra
    rw [generate_sample_json, dif_pos (Nat.le_add_right _ _)]
  · intro fuel
    induction fuel with
    | zero => rfl
    | succ fuel ih =>
      have ih2 : generate_default_value_for_field cyclic_pool fuel
          { json_name := "next", is_list := false, is_map := false,
            kind := PKind.message "M" } = none := ih
      simp [generate_default_value_for_field, cyclic_field, cyclic_lookup,
        List.mapM.loop, ih2]

/-! Method records and the derived method_type. -/

/-- MethodInfo, main.rs lines 47-56 (the proto_parser.rs Method record
carries the same streaming flags and method_type). -/
structure MethodInfo where
  name : String
  input_type : String
  output_type : String
  is_client_streaming : Bool
  is_server_streaming : Bool
  method_type : String

/-- The method_type match of main.rs lines 172-178 and
proto_parser.rs lines 282-288 (identical in both). -/
def method_type_for (is_client_streaming is_server_streaming : Bool) : String :=
  match is_client_streaming, is_server_streaming with
  | false, false => "unary"
  | false, true => "server_streaming"
  | true, false => "client_streaming"
  | true, true => "bidirectional_streaming"

/-- Construction of a parsed method record (main.rs lines 180-187,
proto_parser.rs lines 290-298). -/
def mk_method_info (name input_type output_type : String)
    (is_client_streaming is_server_streaming : Bool) : MethodInfo :=
  { name, input_type, output_type, is_client_streaming, is_server_streaming,
    method_type := method_type_for is_client_streaming is_server_streaming }

/-- C6: the derived method_type of every parsed method follows exactly the
truth table over (client_streaming, server_streaming). -/
theorem c6_method_type_table :
    ∀ name input_type output_type : String,
      (mk_method_info name input_type output_type false false).method_type
          = "unary"
      ∧ (mk_method_info name input_type output_type false true).method_type
          = "server_streaming"
      ∧ (mk_method_info name input_type output_type true false).method_type
          = "client_streaming"
      ∧ (mk_method_info name input_type output_type true true).method_type
          = "bidirectional_streaming" :=
  fun _ _ _ => ⟨rfl, rfl, rfl, rfl⟩

/-! URI construction for calls. Strings are modelled as lists of
characters so the repeated prefix stripping of str::trim_start_matches can
be stated directly. -/

/-- One fuel-indexed pass of Rust str::trim_start_matches: repeatedly remove
the pattern while it is a prefix. Each removal strips at least one
character (patterns used are non-empty), so fuel equal to the subject
length is always sufficient. -/
def trim_start_matches_go : Nat → List Char → List Char → List Char
  | 0, _, s => s
  | n + 1, pat, s =>
    if pat ≠ [] ∧ pat.isPrefixOf s then
      trim_start_matches_go n pat (s.drop pat.length)
    else s

/-- str::trim_start_matches as used in main.rs lines 324-327. -/
def trim_start_matches (pat s : List Char) : List Char :=
  trim_start_matches_go s.length pat s

/-- clean_endpoint, main.rs lines 324-327: strip every leading "http://",
then every leading "https://". -/
def clean_endpoint (endpoint : List Char) : List Char :=
  trim_start_matches "https://".toList
    (trim_start_matches "http://".toList endpoint)

/-- One service of the descriptor pool, with the package name of its parent
file, in pool iteration order. -/
structure PoolService where
  name : List Char
  file_package : List Char

/-- grpc_path construction of main.rs lines 342-355: the package is taken
from the FIRST service of the descriptor pool; none when the pool has no
services (the call errors out before building a URI). -/
def grpc_path_for (pool : List PoolService) (service method : List Char) :
    Option (List Char) :=
  match pool.head? with
  | none => none
  | some first_service =>
    some (if first_service.file_package ≠ [] then
        [ '/' ] ++ first_service.file_package ++ [ '.' ] ++ service
          ++ [ '/' ] ++ method
      else
        [ '/' ] ++ service ++ [ '/' ] ++ method)

/-- Request URI of main.rs lines 389-396: scheme from the TLS config
(enabled flag, absent config means no TLS), cleaned endpoint as host, then
the gRPC path. -/
def build_request_uri (pool : List PoolService)
    (service method endpoint : List Char) (tls_enabled : Option Bool) :
    Option (List Char) :=
  let use_tls := tls_enabled.getD false
  let scheme := if use_tls then "https".toList else "http".toList
  (grpc_path_for pool service method).map
    (fun grpc_path => scheme ++ "://".toList ++ clean_endpoint endpoint ++ grpc_path)

/-- Modelled from the claim wording for comparison: the same URI but with
the path package taken from the file declaring the INVOKED service. -/
def claim_request_uri (pool : List PoolService)
    (service method endpoint : List Char) (tls_enabled : Option Bool) :
    Option (List Char) :=
  let use_tls := tls_enabled.getD false
  let scheme := if use_tls then "https".toList else "http".toList
  (pool.find? (fun s => s.name == service)).map
    (fun svc => scheme ++ "://".toList ++ clean_endpoint endpoint ++
      (if svc.file_package ≠ [] then
        [ '/' ] ++ svc.file_package ++ [ '.' ] ++ service ++ [ '/' ] ++ method
      else
        [ '/' ] ++ service ++ [ '/' ] ++ method))

/-- A pool whose first service lives in a packaged file while the invoked
service Echo lives in a file without a package. -/
def c7_pool : List PoolService :=
  [ { name := "AuxService".toList, file_package := "aux.pkg".toList },
    { name := "Echo".toList, file_package := [] } ]

/-- C7 counterexample: the code takes the package from the first service of
the pool, not from the file declaring the invoked service; invoking Echo/Say
(declared without a package) yields path /aux.pkg.Echo/Say instead of the
claimed /Echo/Say. -/
theorem c7_uri_counterexample :
    build_request_uri c7_pool "Echo".toList "Say".toList
        "localhost:50051".toList none
      = some "http://localhost:50051/aux.pkg.Echo/Say".toList
    ∧ claim_request_uri c7_pool "Echo".toList "Say".toList
        "localhost:50051".toList none
      = some "http://localhost:50051/Echo/Say".toList
    ∧ ("http://localhost:50051/aux.pkg.Echo/Say".toList : List Char)
      ≠ "http://localhost:50051/Echo/Say".toList := by
  refine ⟨?_, ?_, ?_⟩ <;> decide

/-- C7 (amended): the request URI is scheme://host path with the scheme
https exactly when the TLS config is present with enabled = true, the host
the endpoint stripped of leading http:// then https:// prefixes, and the
path built from the package of the file declaring the FIRST service in the
descriptor pool (slash service slash method when that package is empty). -/
theorem c7_uri_construction :
    (∀ (first : PoolService) (rest : List PoolService)
        (service method endpoint : List Char) (tls_enabled : Option Bool),
      build_request_uri (first :: rest) service method endpoint tls_enabled
        = some ((if tls_enabled.getD false then "https".toList else "http".toList)
            ++ "://".toList ++ clean_endpoint endpoint
            ++ (if first.file_package ≠ [] then
                [ '/' ] ++ first.file_package ++ [ '.' ] ++ service
                  ++ [ '/' ] ++ method
              else [ '/' ] ++ service ++ [ '/' ] ++ method)))
    ∧ (∀ tls_enabled : Option Bool,
        ((if tls_enabled.getD false then "https" else "http") = "https")
          ↔ tls_enabled = some true) := by
  constructor
  · intro first rest service method endpoint tls_enabled
    simp [build_request_uri, grpc_path_for]
  · intro tls_enabled
    match tls_enabled with
    | none => simp
    | some b => cases b <;> simp

/-! The stream registry (ACTIVE_CLIENT_STREAMS) and its operations. The
mpsc sender is modelled by a single flag: queue_open is true while the
background task still holds the receiving end (it drops the receiver when
its forwarding loop ends, after which every send on the channel fails). -/

/-- Registry entry for one open client/bidirectional stream
(main.rs lines 28-34); only the state observable by send and finish is
kept. -/
structure ActiveClientStream where
  queue_open : Bool

/-- ACTIVE_CLIENT_STREAMS, main.rs lines 36-38: map from tab id to active
stream, here an association list with unique keys. -/
def StreamRegistry := List (String × ActiveClientStream)

/-- HashMap::get on the registry. -/
def lookup_stream (reg : StreamRegistry) (tab_id : String) :
    Option ActiveClientStream :=
  (List.find? (fun e => e.1 == tab_id) reg).map Prod.snd

/-- HashMap::remove on the registry. -/
def remove_stream (reg : StreamRegistry) (tab_id : String) : StreamRegistry :=
  List.filter (fun e => e.1 != tab_id) reg

/-- start_client_stream registry effect, main.rs lines 1085-1097: insert
(overwriting) a fresh entry whose queue is open. -/
def start_client_stream (reg : StreamRegistry) (tab_id : String) :
    StreamRegistry :=
  (tab_id, { queue_open := true }) :: remove_stream reg tab_id

/-- The background task dropping its channel receiver (sender_task ending,
main.rs lines 949-958): subsequent sends on that queue fail. -/
def close_stream_queue (reg : StreamRegistry) (tab_id : String) :
    StreamRegistry :=
  reg.map (fun e => if e.1 == tab_id then (e.1, { queue_open := false }) else e)

/-- send_stream_message, main.rs lines 1102-1139. `encoded` is the result
of parsing the body JSON and encoding it against the stream's input_desc
(serde_json parse plus DynamicMessage::deserialize); none when either step
fails. The lookup happens before the body is parsed, and the channel push
fails only when the queue is closed. -/
def send_stream_message (reg : StreamRegistry) (tab_id message_id : String)
    (encoded : Option (List Nat)) : Except String String :=
  match lookup_stream reg tab_id with
  | none => Except.error "Stream not found. Start the stream first."
  | some stream =>
    match encoded with
    | none => Except.error "Failed to deserialize message"
    | some _framed =>
      if stream.queue_open then
        Except.ok ("Message " ++ message_id ++ " sent")
      else
        Except.error "Failed to send message, stream may be closed"

/-- finish_streaming registry effect, main.rs lines 1143-1158: remove the
entry (erroring when the tab is unknown); dropping the sender closes the
queue and the response is awaited outside the registry. -/
def finish_streaming (reg : StreamRegistry) (tab_id : String) :
    Except String StreamRegistry :=
  match lookup_stream reg tab_id with
  | none => Except.error "Stream not found. Start the stream first."
  | some _stream => Except.ok (remove_stream reg tab_id)

theorem lookup_stream_skip (e : String × ActiveClientStream)
    (l : StreamRegistry) (t : String) (h : (e.1 == t) = false) :
    lookup_stream (e :: l) t = lookup_stream l t := by
  simp [lookup_stream, List.find?, h]

theorem lookup_remove_stream (reg : StreamRegistry) (tab_id : String) :
    lookup_stream (remove_stream reg tab_id) tab_id = none := by
  induction reg with
  | nil => rfl
  | cons e rest ih =>
    simp only [remove_stream] at ih ⊢
    rw [List.filter_cons]
    cases hb : e.1 != tab_id with
    | false => simpa using ih
    | true =>
      rw [if_pos rfl]
      have h2 : (e.1 == tab_id) = false := by
        revert hb; simp [bne]
      rw [lookup_stream_skip e _ tab_id h2]
      exact ih

/-- C8 counterexample: a send on a registered, open stream still fails when
the message body cannot be parsed or encoded (encoded = none, e.g. a body
that is not valid JSON), so send does not fail ONLY on unknown tab or
closed queue. -/
theorem c8_send_counterexample :
    (send_stream_message [("tab1", { queue_open := true })] "tab1" "1" none).isOk
        = false
    ∧ lookup_stream [("tab1", { queue_open := true })] "tab1"
        = some { queue_open := true } := by
  constructor <;> rfl

/-- C8 (amended): send fails exactly when the tab is unknown, the body
fails to parse or encode, or the queue is closed; after finish removes the
entry every subsequent send on that tab fails with the unknown-tab error,
and finish on a registered tab removes exactly that entry. -/
theorem c8_send_failure_modes :
    (∀ (reg : StreamRegistry) (tab_id message_id : String)
        (encoded : Option (List Nat)),
      (send_stream_message reg tab_id message_id encoded).isOk = false
        ↔ (lookup_stream reg tab_id = none
            ∨ encoded = none
            ∨ ∃ s, lookup_stream reg tab_id = some s ∧ s.queue_open = false))
    ∧ (∀ (reg : StreamRegistry) (tab_id message_id : String)
        (encoded : Option (List Nat)),
      send_stream_message (remove_stream reg tab_id) tab_id message_id encoded
        = Except.error "Stream not found. Start the stream first.")
    ∧ (∀ (reg : StreamRegistry) (tab_id : String) (s : ActiveClientStream),
      lookup_stream reg tab_id = some s →
      finish_streaming reg tab_id = Except.ok (remove_stream reg tab_id)) := by
  refine ⟨?_, ?_, ?_⟩
  · intro reg tab_id message_id encoded
    cases h : lookup_stream reg tab_id with
    | none =>
      simp only [send_stream_message, h]
      simp [Except.isOk, Except.toBool]
    | some s =>
      cases encoded with
      | none =>
        simp only [send_stream_message, h]
        simp [Except.isOk, Except.toBool, h]
      | some framed =>
        cases hq : s.queue_open <;>
          · simp only [send_stream_message, h, hq]
            simp [Except.isOk, Except.toBool, h, hq]
  · intro reg tab_id message_id encoded
    simp [send_stream_message, lookup_remove_stream]
  · intro reg tab_id s h
    simp [finish_streaming, h]

/-- Witness for c8_send_failure_modes: finish on a one-entry registry
removes the entry, and the failure-mode characterization at a concrete
closed-queue registry. -/
theorem c8_send_failure_modes_witness :
    finish_streaming [("t", { queue_open := true })] "t"
        = Except.ok (remove_stream [("t", { queue_open := true })] "t")
    ∧ ((send_stream_message [("t", { queue_open := false })] "t" "1"
          (some [0, 0, 0, 0, 0])).isOk = false
        ↔ (lookup_stream [("t", { queue_open := false })] "t" = none
            ∨ (some [0, 0, 0, 0, 0] : Option (List Nat)) = none
            ∨ ∃ s, lookup_stream [("t", { queue_open := false })] "t" = some s
                ∧ s.queue_open = false)) :=
  ⟨c8_send_failure_modes.2.2 [("t", { queue_open := true })] "t"
      { queue_open := true } rfl,
   c8_send_failure_modes.1 [("t", { queue_open := false })] "t" "1"
      (some [0, 0, 0, 0, 0])⟩

/-! Network error classification (call_grpc_method, main.rs lines 508-554)
and the error envelope (format_error_response, lines 251-274). Error
strings are lists of characters; str::contains is literal substring search
and only the final catch-all rule lowercases its subject first. -/

/-- str::contains on character lists. -/
def contains_sub (hay needle : List Char) : Bool :=
  match hay with
  | [] => needle.isEmpty
  | c :: t => needle.isPrefixOf (c :: t) || contains_sub t needle

/-- str::to_lowercase restricted to the ASCII subject matter of the rules. -/
def to_lower (s : List Char) : List Char := s.map Char.toLower

/-- The classification chain of main.rs lines 516-551, in source order,
returning the category and its fixed troubleshooting hints. -/
def classify_network_error (error_str : List Char) : String × List String :=
  if contains_sub error_str "certificate".toList
      || contains_sub error_str "tls".toList
      || contains_sub error_str "ssl".toList then
    ("TLS/Certificate Error",
     ["Server may require TLS but TLS is not enabled",
      "Server certificate might not be trusted (try 'Insecure Skip Verify' for testing)",
      "Client certificate may be required but not provided",
      "Certificate/key file paths might be incorrect"])
  else if contains_sub error_str "connection refused".toList then
    ("Connection Refused",
     ["Server may not be running",
      "Check if host and port are correct",
      "Firewall might be blocking the connection"])
  else if contains_sub error_str "broken pipe".toList
      || contains_sub error_str "stream closed".toList
      || contains_sub error_str "connection reset".toList then
    ("Connection Closed",
     ["Server closed the connection during handshake",
      "TLS mismatch: server expects TLS but client not using it, or vice versa",
      "Server may have rejected the connection"])
  else if contains_sub error_str "timeout".toList
      || contains_sub error_str "timed out".toList then
    ("Connection Timeout",
     ["Server took too long to respond",
      "Network latency or connectivity issues"])
  else if contains_sub (to_lower error_str) "connect".toList then
    ("Connection Error",
     ["Unable to establish connection to server",
      "Check network connectivity and firewall settings"])
  else
    ("Error", [])

/-- The spec rule table, in its stated order, for the first-match reading of
the classifier. -/
def spec_error_rules : List ((List Char → Bool) × String) :=
  [ (fun e => contains_sub e "certificate".toList
        || contains_sub e "tls".toList || contains_sub e "ssl".toList,
     "TLS/Certificate Error"),
    (fun e => contains_sub e "connection refused".toList,
     "Connection Refused"),
    (fun e => contains_sub e "broken pipe".toList
        || contains_sub e "stream closed".toList
        || contains_sub e "connection reset".toList,
     "Connection Closed"),
    (fun e => contains_sub e "timeout".toList
        || contains_sub e "timed out".toList,
     "Connection Timeout"),
    (fun e => contains_sub (to_lower e) "connect".toList,
     "Connection Error") ]

/-- First matching rule wins; no rule matching gives the default category. -/
def first_matching_category :
    List ((List Char → Bool) × String) → List Char → String
  | [], _ => "Error"
  | rule :: rest, e =>
    if rule.1 e then rule.2 else first_matching_category rest e

/-- The error envelope of format_error_response, main.rs lines 251-274. -/
structure ErrorEnvelope where
  status : String
  error : List Char
  error_category : String
  troubleshooting_hints : List String
  grpc_status : String
  grpc_message : List Char
  endpoint : List Char
  service : List Char
  method : List Char
  response : Option Json

/-- format_error_response, main.rs lines 251-274: the raw error appears
verbatim as both the error and grpc_message fields, grpc_status is
UNAVAILABLE and the response is null. -/
def format_error_response (raw_error endpoint service method : List Char)
    (error_category : String) (troubleshooting_hints : List String) :
    ErrorEnvelope :=
  { status := "error"
    error := raw_error
    error_category := error_category
    troubleshooting_hints := troubleshooting_hints
    grpc_status := "UNAVAILABLE"
    grpc_message := raw_error
    endpoint := endpoint
    service := service
    method := method
    response := none }

/-- C9: the classifier is total and first-match: for every error string the
category equals the first matching rule of the spec table (default "Error"),
lies in the six fixed categories, and the envelope built from the
classification preserves the raw error string verbatim (error and
grpc_message fields) with status "error" and grpc_status "UNAVAILABLE". -/
theorem c9_error_classifier :
    ∀ (e endpoint service method : List Char),
      (classify_network_error e).1 = first_matching_category spec_error_rules e
      ∧ (classify_network_error e).1 ∈
          ["TLS/Certificate Error", "Connection Refused", "Connection Closed",
           "Connection Timeout", "Connection Error", "Error"]
      ∧ (format_error_response e endpoint service method
            (classify_network_error e).1 (classify_network_error e).2).error = e
      ∧ (format_error_response e endpoint service method
            (classify_network_error e).1 (classify_network_error e).2).grpc_message
          = e
      ∧ (format_error_response e endpoint service method
            (classify_network_error e).1 (classify_network_error e).2).status
          = "error"
      ∧ (format_error_response e endpoint service method
            (classify_network_error e).1 (classify_network_error e).2).grpc_status
          = "UNAVAILABLE" := by
  intro e endpoint service method
  refine ⟨?_, ?_, rfl, rfl, rfl, rfl⟩ <;>
  · simp only [classify_network_error, first_matching_category, spec_error_rules]
    cases h1 : contains_sub e "certificate".toList
        || contains_sub e "tls".toList || contains_sub e "ssl".toList <;>
      cases h2 : contains_sub e "connection refused".toList <;>
        cases h3 : contains_sub e "broken pipe".toList
            || contains_sub e "stream closed".toList
            || contains_sub e "connection reset".toList <;>
          cases h4 : contains_sub e "timeout".toList
              || contains_sub e "timed out".toList <;>
            cases h5 : contains_sub (to_lower e) "connect".toList <;>
              simp [h1, h2, h3, h4, h5]

/-! parse_proto_files from the point where service extraction has run
(proto_parser.rs lines 115-155). Filesystem phases (discovery and file
reads) are upstream and feed in as the already-accumulated errors and the
extracted services; enrichment with samples only fills sample_request
fields and is the identity on the fields modelled here. -/

/-- ProtoParseError, proto_parser.rs lines 55-61. -/
structure ProtoParseErrorRec where
  file : String
  message : String
  suggestion : Option String

/-- Service as relevant to the success computation: name, package and
method names (proto_parser.rs lines 15-22, samples omitted as enrichment
is the identity on these fields). -/
structure ServiceRec where
  name : String
  package_name : Option String
  methods : List String

/-- ProtoParseResult, proto_parser.rs lines 46-53. -/
structure ProtoParseResultRec where
  success : Bool
  services : List ServiceRec
  errors : List ProtoParseErrorRec
  warnings : List String

/-- Ord::cmp on Option String (None sorts before Some), as in
a.package_name.cmp of proto_parser.rs line 134. -/
def cmp_option_string : Option String → Option String → Ordering
  | none, none => Ordering.eq
  | none, some _ => Ordering.lt
  | some _, none => Ordering.gt
  | some a, some b => compare a b

/-- The service comparator of proto_parser.rs lines 133-140: package name
first, then service name. -/
def service_order (a b : ServiceRec) : Ordering :=
  let pkg_cmp := cmp_option_string a.package_name b.package_name
  if pkg_cmp = Ordering.eq then compare a.name b.name else pkg_cmp

/-- Insertion into a list sorted by the comparator. -/
def insert_by_order (ord : α → α → Ordering) (x : α) : List α → List α
  | [] => [x]
  | y :: ys =>
    if ord x y = Ordering.gt then y :: insert_by_order ord x ys
    else x :: y :: ys

/-- Vec::sort_by as an insertion sort over the comparator. -/
def sort_by_order (ord : α → α → Ordering) : List α → List α
  | [] => []
  | x :: xs => insert_by_order ord x (sort_by_order ord xs)

/-- The tail of parse_proto_files, proto_parser.rs lines 115-155: append a
protoc error entry when descriptor compilation failed, sort services (and
their method lists), and compute success as errors.is_empty() or services
non-empty. -/
def parse_proto_files_tail (errors0 : List ProtoParseErrorRec)
    (extracted : List ServiceRec) (compile_result : Except String Unit) :
    ProtoParseResultRec :=
  let errors := match compile_result with
    | Except.ok _ => errors0
    | Except.error err => errors0 ++
        [{ file := "protoc", message := err,
           suggestion := some "Ensure protoc is installed and import paths are correct" }]
  let services := sort_by_order service_order
    (extracted.map (fun s => { s with methods := sort_by_order compare s.methods }))
  let success := errors.isEmpty || !services.isEmpty
  { success := success, services := services, errors := errors, warnings := [] }

theorem insert_by_order_ne_nil (ord : α → α → Ordering) (x : α) (l : List α) :
    insert_by_order ord x l ≠ [] := by
  cases l with
  | nil => simp [insert_by_order]
  | cons y ys =>
    simp only [insert_by_order]
    split <;> simp

theorem sort_by_order_eq_nil_iff (ord : α → α → Ordering) (l : List α) :
    sort_by_order ord l = [] ↔ l = [] := by
  cases l with
  | nil => simp [sort_by_order]
  | cons x xs =>
    simp only [sort_by_order]
    constructor
    · intro h
      exact absurd h (insert_by_order_ne_nil ord x _)
    · intro h
      exact absurd h (by simp)

/-- C10: after service extraction, the result's success flag is true
exactly when the result's errors list is empty or its services list is
non-empty; in particular a failed descriptor compilation with at least one
extracted service yields success = true together with a non-empty errors
list. -/
theorem c10_success_flag :
    (∀ (errors0 : List ProtoParseErrorRec) (extracted : List ServiceRec)
        (compile_result : Except String Unit),
      (parse_proto_files_tail errors0 extracted compile_result).success = true
        ↔ ((parse_proto_files_tail errors0 extracted compile_result).errors = []
            ∨ (parse_proto_files_tail errors0 extracted compile_result).services
                ≠ []))
    ∧ (∀ (errors0 : List ProtoParseErrorRec) (extracted : List ServiceRec)
        (err : String), extracted ≠ [] →
      (parse_proto_files_tail errors0 extracted (Except.error err)).success = true
        ∧ (parse_proto_files_tail errors0 extracted (Except.error err)).errors
            ≠ []) := by
  constructor
  · intro errors0 extracted compile_result
    simp only [parse_proto_files_tail]
    constructor
    · intro h
      rcases Bool.or_eq_true_iff.mp h with h1 | h1
      · left
        exact List.isEmpty_iff.mp h1
      · right
        intro hc
        rw [hc] at h1
        simp at h1
    · intro h
      rcases h with h1 | h1
      · rw [h1]
        simp
      · apply Bool.or_eq_true_iff.mpr
        right
        simp only [Bool.not_eq_true']
        cases hs : (sort_by_order service_order
            (extracted.map (fun s =>
              { s with methods := sort_by_order compare s.methods }))).isEmpty
        · rfl
        · exact absurd (List.isEmpty_iff.mp hs) h1
  · intro errors0 extracted err hne
    constructor
    · have hserv : (sort_by_order service_order
          (extracted.map (fun s =>
            { s with methods := sort_by_order compare s.methods }))) ≠ [] := by
        rw [Ne, sort_by_order_eq_nil_iff, List.map_eq_nil_iff]
        exact hne
      simp only [parse_proto_files_tail]
      cases hs : (sort_by_order service_order
          (extracted.map (fun s =>
            { s with methods := sort_by_order compare s.methods }))).isEmpty with
      | false => simp [hs]
      | true => exact absurd (List.isEmpty_iff.mp hs) hserv
    · simp [parse_proto_files_tail]

/-- Witness for c10_success_flag: one extracted service and a failing
protoc compilation give success with a non-empty errors list. -/
theorem c10_success_flag_witness :
    (parse_proto_files_tail []
        [{ name := "Echo", package_name := none, methods := [] }]
        (Except.error "protoc failed")).success = true
    ∧ (parse_proto_files_tail []
        [{ name := "Echo", package_name := none, methods := [] }]
        (Except.error "protoc failed")).errors ≠ [] :=
  c10_success_flag.2 [] [{ name := "Echo", package_name := none, methods := [] }]
    "protoc failed" (by simp)

end GrpcPeek
